import Mathlib

/-!
Verification of the HS220 forward-kinematics solver and its joint-state
handling, embedded shallowly: JavaScript numbers are modelled as real
numbers, `NaN` as a distinguished constructor, and `toFixed(2)` as
round-half-up to two decimals via the integer floor.
-/

namespace HS220

noncomputable section

open Real

/-- Degrees to radians (source helper `d2r`). -/
def d2r (deg : ℝ) : ℝ := deg * Real.pi / 180.0

/-- Radians to degrees (source helper `r2d`). -/
def r2d (rad : ℝ) : ℝ := rad * 180.0 / Real.pi

/-- The six joint angles, in degrees (source `JointState`). -/
structure JointState where
  j1 : ℝ
  j2 : ℝ
  j3 : ℝ
  j4 : ℝ
  j5 : ℝ
  j6 : ℝ

/-- Cartesian pose: position in millimetres, orientation in degrees
(source `Pose`). -/
structure Pose where
  x : ℝ
  y : ℝ
  z : ℝ
  rx : ℝ
  ry : ℝ
  rz : ℝ

/-- Calibrated dimension record (source `DIMS`). -/
structure Dims where
  d1 : ℝ
  a1 : ℝ
  a2 : ℝ
  a3 : ℝ
  d4 : ℝ
  j2_offset_deg : ℝ
  j3_offset_deg : ℝ

/-- The calibration constants of the source file. -/
def DIMS : Dims :=
  { d1 := 643.0
    a1 := 352.0
    a2 := 1075.0
    a3 := 1210.0
    d4 := 0.0
    j2_offset_deg := 0.0
    j3_offset_deg := -90.0 }

/-- `parseFloat(num.toFixed(2))`: round to two decimals, ties away from
the smaller candidate (ECMAScript picks the larger integer on ties). -/
def round2 (num : ℝ) : ℝ := ((⌊num * 100 + 1 / 2⌋ : ℤ) : ℝ) / 100

/-- Source `cleanFloat`: magnitudes below `0.001` collapse to `0.0`,
everything else is rounded to two decimals. -/
def cleanFloat (num : ℝ) : ℝ :=
  if |num| < 0.001 then 0.0 else round2 num

/-- `theta_2` of `calculateForwardKinematics`: the lower-arm angle `H`. -/
def theta_2 (j : JointState) : ℝ := d2r j.j2

/-- `theta_3` of `calculateForwardKinematics`: `H + V` plus the elbow offset. -/
def theta_3 (j : JointState) : ℝ := d2r j.j2 + d2r j.j3 + d2r DIMS.j3_offset_deg

/-- `theta_4` of `calculateForwardKinematics`: global pitch accumulation. -/
def theta_4 (j : JointState) : ℝ :=
  d2r j.j2 + d2r j.j3 + d2r j.j5 + d2r DIMS.j3_offset_deg

/-- The planar reach `r_xy` of `calculateForwardKinematics`. -/
def r_xy (j : JointState) : ℝ :=
  DIMS.a1 + DIMS.a2 * Real.cos (theta_2 j) + DIMS.a3 * Real.cos (theta_3 j) +
    DIMS.d4 * Real.cos (theta_4 j)

/-- The `x` local of `calculateForwardKinematics`. -/
def fkX (j : JointState) : ℝ := Real.cos (d2r j.j1) * r_xy j

/-- The `y` local of `calculateForwardKinematics`. -/
def fkY (j : JointState) : ℝ := Real.sin (d2r j.j1) * r_xy j

/-- The `z` local of `calculateForwardKinematics`. -/
def fkZ (j : JointState) : ℝ :=
  DIMS.d1 + DIMS.a2 * Real.sin (theta_2 j) + DIMS.a3 * Real.sin (theta_3 j) +
    DIMS.d4 * Real.sin (theta_4 j)

/-- The `global_pitch_deg` local of `calculateForwardKinematics`. -/
def global_pitch_deg (j : JointState) : ℝ := r2d (theta_4 j)

/-- The value assigned to `rx` by the front/back branch. -/
def rxPre (j : JointState) : ℝ := if r_xy j ≥ 0 then 180.0 else 0.0

/-- The value assigned to `rz` by the front/back branch. -/
def rzPre (j : JointState) : ℝ := if r_xy j ≥ 0 then 180.0 else 0.0

/-- The value assigned to `ry` by the front/back branch, before the
`±360` normalization. -/
def ryPre (j : JointState) : ℝ :=
  if r_xy j ≥ 0 then global_pitch_deg j + 90.0 else 90.0 - global_pitch_deg j

/-- The two sequential normalization steps applied to `ry`:
subtract `360` if above `180`, then add `360` if below `-180`. -/
def normalizeRy (ry : ℝ) : ℝ :=
  let ry1 := if ry > 180 then ry - 360 else ry
  if ry1 < -180 then ry1 + 360 else ry1

/-- Source `calculateForwardKinematics`, assembled from the locals above. -/
def calculateForwardKinematics (joints : JointState) : Pose :=
  { x := fkX joints
    y := fkY joints
    z := fkZ joints
    rx := cleanFloat (rxPre joints)
    ry := cleanFloat (normalizeRy (ryPre joints))
    rz := cleanFloat (rzPre joints) }

/-- Source `INITIAL_JOINTS`. -/
def INITIAL_JOINTS : JointState :=
  { j1 := 0, j2 := 90, j3 := 0, j4 := 0, j5 := -90, j6 := 0 }

/-- The six axes of the robot, keys of `JointState`. -/
inductive Axis
  | j1
  | j2
  | j3
  | j4
  | j5
  | j6

/-- A per-axis limit record (`{ min, max }` in the source). -/
structure Limit where
  min : ℝ
  max : ℝ

/-- Source `JOINT_LIMITS`. -/
def JOINT_LIMITS : Axis → Limit
  | .j1 => { min := -180, max := 180 }
  | .j2 => { min := 0, max := 160 }
  | .j3 => { min := -180, max := 90 }
  | .j4 => { min := -360, max := 360 }
  | .j5 => { min := -180, max := 180 }
  | .j6 => { min := -360, max := 360 }

/-- Read one axis out of a joint state (`joints[axis]`). -/
def getAxis (s : JointState) : Axis → ℝ
  | .j1 => s.j1
  | .j2 => s.j2
  | .j3 => s.j3
  | .j4 => s.j4
  | .j5 => s.j5
  | .j6 => s.j6

/-- Functional update of one axis (`{ ...prev, [axis]: v }`). -/
def setAxis (s : JointState) (a : Axis) (v : ℝ) : JointState :=
  match a with
  | .j1 => { s with j1 := v }
  | .j2 => { s with j2 := v }
  | .j3 => { s with j3 := v }
  | .j4 => { s with j4 := v }
  | .j5 => { s with j5 := v }
  | .j6 => { s with j6 := v }

/-- A JavaScript number: either `NaN` or an ordinary real value. -/
inductive JSNum
  | nan
  | num (x : ℝ)

/-- `Math.min(Math.max(value, limit.min), limit.max)` from
`Controls.handleChange`. -/
def clampTo (l : Limit) (v : ℝ) : ℝ := min (max v l.min) l.max

/-- `Controls.handleChange`: discard `NaN`, otherwise clamp to the axis
limits and store. -/
def handleChange (axis : Axis) (value : JSNum) (s : JointState) : JointState :=
  match value with
  | .nan => s
  | .num v => setAxis s axis (clampTo (JOINT_LIMITS axis) v)

/-- The joint-state update performed by `AICopilot.handleSubmit` on the
service result: a non-null result is stored verbatim. -/
def applySuggestion (target : Option JointState) (s : JointState) : JointState :=
  match target with
  | none => s
  | some t => t

/-- The per-axis limit invariant of the spec. -/
def inLimits (s : JointState) : Prop :=
  ∀ a : Axis, (JOINT_LIMITS a).min ≤ getAxis s a ∧ getAxis s a ≤ (JOINT_LIMITS a).max

/-- The all-zero joint state, used as a concrete evaluation point. -/
def zeroJoints : JointState := { j1 := 0, j2 := 0, j3 := 0, j4 := 0, j5 := 0, j6 := 0 }

/-- A suggestion-service result with `j2` far outside `[0, 160]`. -/
def badTarget : JointState := { j1 := 0, j2 := 999, j3 := 0, j4 := 0, j5 := 0, j6 := 0 }

/-- The joint state with `J3` at its lower limit `-180` and all other
axes at `0`; every axis is inside its nominal range. -/
def j3AtMin : JointState := { j1 := 0, j2 := 0, j3 := -180, j4 := 0, j5 := 0, j6 := 0 }

/-- Calibration pose 1 of the source comments:
`J1=0, J2=90, J3=0, J4=0, J5=-90, J6=0`. -/
def pose1Joints : JointState := { j1 := 0, j2 := 90, j3 := 0, j4 := 0, j5 := -90, j6 := 0 }

/-- Calibration pose 2 of the source comments:
`J1=0, J2=155, J3=0, J4=0, J5=0, J6=0`. -/
def pose2Joints : JointState := { j1 := 0, j2 := 155, j3 := 0, j4 := 0, j5 := 0, j6 := 0 }

lemma r2d_theta_4 (j : JointState) : r2d (theta_4 j) = j.j2 + j.j3 + j.j5 - 90 := by
  unfold theta_4 d2r r2d DIMS
  field_simp
  ring

lemma cleanFloat_at_180 : cleanFloat 180.0 = 180 := by
  unfold cleanFloat round2
  norm_num [Int.floor_eq_iff]

lemma cleanFloat_at_0 : cleanFloat 0.0 = 0 := by
  unfold cleanFloat
  norm_num

lemma cleanFloat_at_neg180 : cleanFloat (-180) = -180 := by
  unfold cleanFloat round2
  norm_num [Int.floor_eq_iff]

lemma fk_rx_eq (j : JointState) :
    (calculateForwardKinematics j).rx = cleanFloat (rxPre j) := rfl

lemma fk_ry_eq (j : JointState) :
    (calculateForwardKinematics j).ry = cleanFloat (normalizeRy (ryPre j)) := rfl

lemma fk_rz_eq (j : JointState) :
    (calculateForwardKinematics j).rz = cleanFloat (rzPre j) := rfl

lemma r_xy_zeroJoints : r_xy zeroJoints = 1427 := by
  have h1 : theta_2 zeroJoints = 0 := by
    unfold theta_2 d2r zeroJoints
    norm_num
  have h2 : theta_3 zeroJoints = -(Real.pi / 2) := by
    unfold theta_3 d2r zeroJoints DIMS
    ring
  have h3 : theta_4 zeroJoints = -(Real.pi / 2) := by
    unfold theta_4 d2r zeroJoints DIMS
    ring
  unfold r_xy DIMS
  rw [h1, h2, h3]
  simp [Real.cos_pi_div_two]
  norm_num

/-- **C1.** The orientation branch of `calculateForwardKinematics` is chosen
by the sign of the planar reach `r_xy`: when `r_xy ≥ 0` (including `0`) the
pose has `rx = 180`, `rz = 180` and the pre-normalization `ry` is `theta_4`
in degrees plus `90`; when `r_xy < 0` the pose has `rx = 0`, `rz = 0` and
the pre-normalization `ry` is `90` minus `theta_4` in degrees.  The two
cases are exhaustive, so there is no third branch and no blending. -/
theorem fk_orientation_branch (j : JointState) :
    (r_xy j ≥ 0 →
      (calculateForwardKinematics j).rx = 180 ∧
      (calculateForwardKinematics j).rz = 180 ∧
      ryPre j = r2d (theta_4 j) + 90) ∧
    (r_xy j < 0 →
      (calculateForwardKinematics j).rx = 0 ∧
      (calculateForwardKinematics j).rz = 0 ∧
      ryPre j = 90 - r2d (theta_4 j)) ∧
    (r_xy j ≥ 0 ∨ r_xy j < 0) := by
  refine ⟨fun h => ?_, fun h => ?_, le_or_lt 0 (r_xy j)⟩
  · rw [fk_rx_eq, fk_rz_eq]
    unfold rxPre rzPre ryPre global_pitch_deg
    rw [if_pos h]
    exact ⟨cleanFloat_at_180, cleanFloat_at_180, by rw [if_pos h]; norm_num⟩
  · rw [fk_rx_eq, fk_rz_eq]
    unfold rxPre rzPre ryPre global_pitch_deg
    rw [if_neg (not_le.mpr h)]
    exact ⟨cleanFloat_at_0, cleanFloat_at_0, by rw [if_neg (not_le.mpr h)]; norm_num⟩

/-- Witness for C1: at the all-zero joint state the reach is `1427 ≥ 0` and
the front branch applies. -/
theorem fk_orientation_branch_witness :
    r_xy zeroJoints ≥ 0 ∧
    (calculateForwardKinematics zeroJoints).rx = 180 ∧
    (calculateForwardKinematics zeroJoints).rz = 180 ∧
    ryPre zeroJoints = r2d (theta_4 zeroJoints) + 90 := by
  have hr : r_xy zeroJoints ≥ 0 := by
    rw [r_xy_zeroJoints]
    norm_num
  exact ⟨hr, (fk_orientation_branch zeroJoints).1 hr⟩

/-- **C2.** The position returned by `calculateForwardKinematics` equals the
closed-form cylindrical model with the exact calibration constants
`d1 = 643`, `a1 = 352`, `a2 = 1075`, `a3 = 1210`, `d4 = 0` and elbow offset
`-90°`, with `theta2 = J2`, `theta3 = J2 + J3 - 90°`,
`theta4 = J2 + J3 + J5 - 90°` in radians. -/
theorem fk_position_closed_form (j : JointState) :
    (calculateForwardKinematics j).x =
      Real.cos (d2r j.j1) *
        (352 + 1075 * Real.cos (d2r j.j2) + 1210 * Real.cos (d2r (j.j2 + j.j3 - 90)) +
          0 * Real.cos (d2r (j.j2 + j.j3 + j.j5 - 90))) ∧
    (calculateForwardKinematics j).y =
      Real.sin (d2r j.j1) *
        (352 + 1075 * Real.cos (d2r j.j2) + 1210 * Real.cos (d2r (j.j2 + j.j3 - 90)) +
          0 * Real.cos (d2r (j.j2 + j.j3 + j.j5 - 90))) ∧
    (calculateForwardKinematics j).z =
      643 + 1075 * Real.sin (d2r j.j2) + 1210 * Real.sin (d2r (j.j2 + j.j3 - 90)) +
        0 * Real.sin (d2r (j.j2 + j.j3 + j.j5 - 90)) := by
  have h3 : theta_3 j = d2r (j.j2 + j.j3 - 90) := by
    unfold theta_3 d2r DIMS
    ring
  have h4 : theta_4 j = d2r (j.j2 + j.j3 + j.j5 - 90) := by
    unfold theta_4 d2r DIMS
    ring
  have h2 : theta_2 j = d2r j.j2 := rfl
  refine ⟨?_, ?_, ?_⟩
  · show fkX j = _
    unfold fkX r_xy DIMS
    rw [h2, h3, h4]
    norm_num
  · show fkY j = _
    unfold fkY r_xy DIMS
    rw [h2, h3, h4]
    norm_num
  · show fkZ j = _
    unfold fkZ DIMS
    rw [h2, h3, h4]
    norm_num

lemma normalizeRy_bounds (v : ℝ) (h1 : -360 ≤ v) (h2 : v ≤ 540) :
    -180 ≤ normalizeRy v ∧ normalizeRy v ≤ 180 := by
  unfold normalizeRy
  dsimp only
  split_ifs <;> constructor <;> linarith

lemma cleanFloat_bounds (v : ℝ) (h1 : -180 ≤ v) (h2 : v ≤ 180) :
    -180 ≤ cleanFloat v ∧ cleanFloat v ≤ 180 := by
  unfold cleanFloat round2
  split_ifs with h
  · norm_num
  · have hfl : (-18000 : ℤ) ≤ ⌊v * 100 + 1 / 2⌋ := by
      refine Int.le_floor.mpr ?_
      push_cast
      linarith
    have hfu : ⌊v * 100 + 1 / 2⌋ ≤ 18000 := by
      have hle : v * 100 + 1 / 2 ≤ (18000.5 : ℝ) := by linarith
      have hcap : ⌊(18000.5 : ℝ)⌋ = 18000 := by norm_num [Int.floor_eq_iff]
      have := Int.floor_le_floor hle
      omega
    constructor
    · have hc : ((-18000 : ℤ) : ℝ) ≤ ((⌊v * 100 + 1 / 2⌋ : ℤ) : ℝ) := by exact_mod_cast hfl
      push_cast at hc
      linarith
    · have hc : ((⌊v * 100 + 1 / 2⌋ : ℤ) : ℝ) ≤ ((18000 : ℤ) : ℝ) := by exact_mod_cast hfu
      push_cast at hc
      linarith

lemma cos_neg_three_pi_div_two : Real.cos (-(3 * Real.pi / 2)) = 0 := by
  rw [Real.cos_neg, show 3 * Real.pi / 2 = Real.pi + Real.pi / 2 by ring, Real.cos_add,
    Real.cos_pi, Real.sin_pi, Real.cos_pi_div_two, Real.sin_pi_div_two]
  norm_num

lemma r_xy_j3AtMin : r_xy j3AtMin = 1427 := by
  have h1 : theta_2 j3AtMin = 0 := by
    unfold theta_2 d2r j3AtMin
    norm_num
  have h2 : theta_3 j3AtMin = -(3 * Real.pi / 2) := by
    unfold theta_3 d2r j3AtMin DIMS
    ring
  have h3 : theta_4 j3AtMin = -(3 * Real.pi / 2) := by
    unfold theta_4 d2r j3AtMin DIMS
    ring
  unfold r_xy DIMS
  rw [h1, h2, h3, cos_neg_three_pi_div_two]
  simp
  norm_num

lemma fk_pose1_exact :
    (calculateForwardKinematics pose1Joints).x = 1562 ∧
    (calculateForwardKinematics pose1Joints).z = 1718 := by
  have h1 : d2r pose1Joints.j1 = 0 := by
    unfold pose1Joints d2r
    norm_num
  have h2 : theta_2 pose1Joints = Real.pi / 2 := by
    unfold theta_2 pose1Joints d2r
    ring
  have h3 : theta_3 pose1Joints = 0 := by
    unfold theta_3 pose1Joints d2r DIMS
    ring
  have h4 : theta_4 pose1Joints = -(Real.pi / 2) := by
    unfold theta_4 pose1Joints d2r DIMS
    ring
  constructor
  · show fkX pose1Joints = _
    unfold fkX r_xy DIMS
    rw [h1, h2, h3, h4]
    simp [Real.cos_pi_div_two]
    norm_num
  · show fkZ pose1Joints = _
    unfold fkZ DIMS
    rw [h2, h3, h4]
    simp [Real.sin_pi_div_two]
    norm_num

/-- **C3 (code bug).** At calibration pose 2 (`J2 = 155`, all other axes
`0`) the `x` returned by `calculateForwardKinematics` lies in
`[-115, -104]`, more than `150` away from the documented controller
reading `x ≈ -272`: the code does not reproduce its own calibration
data. -/
theorem fk_pose2_calibration_mismatch :
    (calculateForwardKinematics pose2Joints).x ∈ Set.Icc (-115 : ℝ) (-104) ∧
    1 < |(calculateForwardKinematics pose2Joints).x - (-272)| := by
  have hπl : 3.141592 < Real.pi := Real.pi_gt_d6
  have hπu : Real.pi < 3.141593 := Real.pi_lt_d6
  have hx : (calculateForwardKinematics pose2Joints).x =
      352 - 1075 * Real.cos (d2r 25) + 1210 * Real.sin (d2r 25) := by
    show fkX pose2Joints = _
    have h1 : d2r pose2Joints.j1 = 0 := by
      unfold pose2Joints d2r
      norm_num
    have h2 : theta_2 pose2Joints = Real.pi - d2r 25 := by
      unfold theta_2 pose2Joints d2r
      ring
    have h3 : theta_3 pose2Joints = Real.pi / 2 - d2r 25 := by
      unfold theta_3 pose2Joints d2r DIMS
      ring
    unfold fkX r_xy DIMS
    rw [h1, h2, h3, Real.cos_zero, Real.cos_pi_sub, Real.cos_pi_div_two_sub]
    ring_nf
  have hc_lo : (0.4363 : ℝ) < d2r 25 := by
    unfold d2r
    nlinarith
  have hc_hi : d2r 25 < 0.4364 := by
    unfold d2r
    nlinarith
  have hc_pos : (0 : ℝ) < d2r 25 := by linarith
  have habs : |d2r 25| ≤ 1 := by
    rw [abs_of_pos hc_pos]
    linarith
  have hcb := Real.cos_bound habs
  have hsb := Real.sin_bound habs
  rw [abs_of_pos hc_pos, abs_le] at hcb hsb
  have h2hi : (d2r 25) ^ 2 < 0.19045 := by nlinarith
  have h2lo : (0.19035 : ℝ) < (d2r 25) ^ 2 := by nlinarith
  have h3hi : (d2r 25) ^ 3 < 0.0832 := by nlinarith
  have h3lo : (0.0830 : ℝ) < (d2r 25) ^ 3 := by nlinarith
  have h4hi : (d2r 25) ^ 4 < 0.03628 := by nlinarith
  have h4lo : (0 : ℝ) ≤ (d2r 25) ^ 4 := by positivity
  have hcos_lo : (0.9028 : ℝ) ≤ Real.cos (d2r 25) := by linarith [hcb.1]
  have hcos_hi : Real.cos (d2r 25) ≤ 0.9068 := by linarith [hcb.2]
  have hsin_lo : (0.4205 : ℝ) ≤ Real.sin (d2r 25) := by linarith [hsb.1]
  have hsin_hi : Real.sin (d2r 25) ≤ 0.4245 := by linarith [hsb.2]
  constructor
  · rw [hx, Set.mem_Icc]
    constructor <;> linarith
  · rw [hx]
    have hpos : (0 : ℝ) < 352 - 1075 * Real.cos (d2r 25) + 1210 * Real.sin (d2r 25) - -272 := by
      linarith
    rw [abs_of_pos hpos]
    linarith

/-- **C4 counterexample.** At the in-limits joint state `J3 = -180` (all
other axes `0`) the front branch applies and `ry` comes out exactly
`-180`, which is outside the claimed half-open interval `(-180, 180]`;
the strict `< -180` test of the normalization never moves `-180`. -/
theorem fk_ry_escapes_Ioc :
    inLimits j3AtMin ∧
    (calculateForwardKinematics j3AtMin).ry = -180 ∧
    (calculateForwardKinematics j3AtMin).ry ∉ Set.Ioc (-180 : ℝ) 180 := by
  have hge : r_xy j3AtMin ≥ 0 := by
    rw [r_xy_j3AtMin]
    norm_num
  have hpre : ryPre j3AtMin = -180 := by
    unfold ryPre global_pitch_deg
    rw [if_pos hge, r2d_theta_4]
    norm_num [j3AtMin]
  have hnorm : normalizeRy (-180 : ℝ) = -180 := by
    unfold normalizeRy
    norm_num
  have hval : (calculateForwardKinematics j3AtMin).ry = -180 := by
    rw [fk_ry_eq, hpre, hnorm, cleanFloat_at_neg180]
  refine ⟨?_, hval, ?_⟩
  · intro a
    cases a <;> norm_num [JOINT_LIMITS, getAxis, j3AtMin]
  · rw [hval]
    simp

/-- **C4 (amended).** For every joint state inside the nominal per-axis
limits, the returned `ry` lies in the closed interval `[-180, 180]` (the
value `-180` is attained, so the interval cannot be half-open), and the
single `±360` normalization step of the code suffices for this range. -/
theorem fk_ry_in_Icc_of_limits (j : JointState) (h : inLimits j) :
    (calculateForwardKinematics j).ry ∈ Set.Icc (-180 : ℝ) 180 := by
  have h2 := h Axis.j2
  have h3 := h Axis.j3
  have h5 := h Axis.j5
  norm_num [JOINT_LIMITS, getAxis] at h2 h3 h5
  have hbound : -360 ≤ ryPre j ∧ ryPre j ≤ 540 := by
    unfold ryPre global_pitch_deg
    rw [r2d_theta_4]
    split_ifs <;> constructor <;> linarith [h2.1, h2.2, h3.1, h3.2, h5.1, h5.2]
  have hb := normalizeRy_bounds (ryPre j) hbound.1 hbound.2
  have hc := cleanFloat_bounds _ hb.1 hb.2
  rw [fk_ry_eq]
  exact Set.mem_Icc.mpr hc

/-- Witness for the amended C4: the all-zero joint state is inside all
limits and its `ry` lies in `[-180, 180]`. -/
theorem fk_ry_in_Icc_of_limits_witness :
    inLimits zeroJoints ∧
    (calculateForwardKinematics zeroJoints).ry ∈ Set.Icc (-180 : ℝ) 180 := by
  have hz : inLimits zeroJoints := by
    intro a
    cases a <;> norm_num [JOINT_LIMITS, getAxis, zeroJoints]
  exact ⟨hz, fk_ry_in_Icc_of_limits zeroJoints hz⟩

/-- **C5 counterexample.** The update path of `AICopilot.handleSubmit`
stores the service result verbatim: a returned joint state with
`j2 = 999` (outside `[0, 160]`) is stored unclamped, so not every update
path clamps before the state is stored. -/
theorem suggestion_path_stores_unclamped :
    applySuggestion (some badTarget) INITIAL_JOINTS = badTarget ∧
    getAxis (applySuggestion (some badTarget) INITIAL_JOINTS) Axis.j2 = 999 ∧
    ¬ inLimits (applySuggestion (some badTarget) INITIAL_JOINTS) := by
  refine ⟨rfl, rfl, fun h => ?_⟩
  have h2 := (h Axis.j2).2
  rw [show applySuggestion (some badTarget) INITIAL_JOINTS = badTarget from rfl] at h2
  norm_num [getAxis, JOINT_LIMITS, badTarget] at h2

/-- **C5 (amended).** Only the slider/number-input path clamps: the value
stored by `Controls.handleChange` for the changed axis always lies inside
that axis's limits, while the pose-suggestion path of
`AICopilot.handleSubmit` stores the returned joint state unchanged,
without any clamping. -/
theorem slider_clamps_suggestion_passthrough (a : Axis) (v : ℝ) (t s : JointState) :
    (JOINT_LIMITS a).min ≤ getAxis (handleChange a (JSNum.num v) s) a ∧
    getAxis (handleChange a (JSNum.num v) s) a ≤ (JOINT_LIMITS a).max ∧
    applySuggestion (some t) s = t := by
  have hget : getAxis (handleChange a (JSNum.num v) s) a = clampTo (JOINT_LIMITS a) v := by
    cases a <;> rfl
  refine ⟨?_, ?_, rfl⟩
  · rw [hget]
    unfold clampTo
    refine le_min (le_max_right _ _) ?_
    cases a <;> norm_num [JOINT_LIMITS]
  · rw [hget]
    exact min_le_right _ _

/-- **C6.** `calculateForwardKinematics` is a total function of the six
real joint angles (its Lean type has no error case), and every input
yields a finite pose: the position components are bounded by the sum of
the calibrated link lengths. -/
theorem fk_total_bounded (j : JointState) :
    |(calculateForwardKinematics j).x| ≤ 2637 ∧
    |(calculateForwardKinematics j).y| ≤ 2637 ∧
    |(calculateForwardKinematics j).z - 643| ≤ 2285 := by
  have hrxy : |r_xy j| ≤ 2637 := by
    unfold r_xy DIMS
    have c2 := Real.neg_one_le_cos (theta_2 j)
    have c2' := Real.cos_le_one (theta_2 j)
    have c3 := Real.neg_one_le_cos (theta_3 j)
    have c3' := Real.cos_le_one (theta_3 j)
    rw [abs_le]
    constructor <;> nlinarith
  refine ⟨?_, ?_, ?_⟩
  · show |fkX j| ≤ 2637
    unfold fkX
    rw [abs_mul]
    calc |Real.cos (d2r j.j1)| * |r_xy j| ≤ 1 * 2637 :=
          mul_le_mul (Real.abs_cos_le_one _) hrxy (abs_nonneg _) zero_le_one
      _ = 2637 := by norm_num
  · show |fkY j| ≤ 2637
    unfold fkY
    rw [abs_mul]
    calc |Real.sin (d2r j.j1)| * |r_xy j| ≤ 1 * 2637 :=
          mul_le_mul (Real.abs_sin_le_one _) hrxy (abs_nonneg _) zero_le_one
      _ = 2637 := by norm_num
  · show |fkZ j - 643| ≤ 2285
    unfold fkZ DIMS
    have s2 := Real.neg_one_le_sin (theta_2 j)
    have s2' := Real.sin_le_one (theta_2 j)
    have s3 := Real.neg_one_le_sin (theta_3 j)
    have s3' := Real.sin_le_one (theta_3 j)
    rw [abs_le]
    constructor <;> nlinarith

/-- **C7.** Each orientation component of the returned pose is reported
as exactly `0` when its pre-rounding magnitude is below `0.001`, and is
otherwise rounded to two decimal places (round half up on hundredths),
while the position components are returned unprocessed, at the full
precision of the closed-form model. -/
theorem fk_output_rounding (j : JointState) :
    (calculateForwardKinematics j).rx =
      (if |rxPre j| < 0.001 then 0 else ((⌊rxPre j * 100 + 1 / 2⌋ : ℤ) : ℝ) / 100) ∧
    (calculateForwardKinematics j).ry =
      (if |normalizeRy (ryPre j)| < 0.001 then 0
        else ((⌊normalizeRy (ryPre j) * 100 + 1 / 2⌋ : ℤ) : ℝ) / 100) ∧
    (calculateForwardKinematics j).rz =
      (if |rzPre j| < 0.001 then 0 else ((⌊rzPre j * 100 + 1 / 2⌋ : ℤ) : ℝ) / 100) ∧
    (calculateForwardKinematics j).x = Real.cos (d2r j.j1) * r_xy j ∧
    (calculateForwardKinematics j).y = Real.sin (d2r j.j1) * r_xy j ∧
    (calculateForwardKinematics j).z =
      643 + 1075 * Real.sin (theta_2 j) + 1210 * Real.sin (theta_3 j) +
        0 * Real.sin (theta_4 j) := by
  refine ⟨?_, ?_, ?_, rfl, rfl, ?_⟩
  · show cleanFloat (rxPre j) = _
    unfold cleanFloat round2
    norm_num
  · show cleanFloat (normalizeRy (ryPre j)) = _
    unfold cleanFloat round2
    norm_num
  · show cleanFloat (rzPre j) = _
    unfold cleanFloat round2
    norm_num
  · show fkZ j = _
    unfold fkZ DIMS
    norm_num

/-- **C8.** A `NaN` slider/number input is discarded before reaching the
engine: `Controls.handleChange` leaves the stored joint state completely
unchanged, and therefore the pose computed from the store is the pose of
the previous state — no pose is ever computed from a `NaN` angle. -/
theorem nan_update_discarded (axis : Axis) (s : JointState) :
    handleChange axis JSNum.nan s = s ∧
    calculateForwardKinematics (handleChange axis JSNum.nan s) =
      calculateForwardKinematics s :=
  ⟨rfl, rfl⟩

/-- **C9.** Per-axis clamping is idempotent: a value already inside its
axis's `[min, max]` interval is returned unchanged by the clamp of
`Controls.handleChange`. -/
theorem clamp_idempotent (a : Axis) (v : ℝ)
    (h1 : (JOINT_LIMITS a).min ≤ v) (h2 : v ≤ (JOINT_LIMITS a).max) :
    clampTo (JOINT_LIMITS a) v = v := by
  unfold clampTo
  rw [max_eq_left h1, min_eq_left h2]

/-- Witness for C9: the in-range value `5` on axis `J1` is untouched. -/
theorem clamp_idempotent_witness :
    (JOINT_LIMITS Axis.j1).min ≤ (5 : ℝ) ∧ (5 : ℝ) ≤ (JOINT_LIMITS Axis.j1).max ∧
    clampTo (JOINT_LIMITS Axis.j1) 5 = 5 := by
  have h1 : (JOINT_LIMITS Axis.j1).min ≤ (5 : ℝ) := by norm_num [JOINT_LIMITS]
  have h2 : (5 : ℝ) ≤ (JOINT_LIMITS Axis.j1).max := by norm_num [JOINT_LIMITS]
  exact ⟨h1, h2, clamp_idempotent Axis.j1 5 h1 h2⟩

/-- **C10.** The pose is completely independent of `J4` and `J6`: two
joint states agreeing on `j1`, `j2`, `j3`, `j5` produce identical poses
in all six components, whatever their `j4` and `j6`. -/
theorem fk_ignores_j4_j6 (j j' : JointState) (h1 : j.j1 = j'.j1)
    (h2 : j.j2 = j'.j2) (h3 : j.j3 = j'.j3) (h5 : j.j5 = j'.j5) :
    calculateForwardKinematics j = calculateForwardKinematics j' := by
  unfold calculateForwardKinematics fkX fkY fkZ rxPre rzPre ryPre global_pitch_deg
    r_xy theta_2 theta_3 theta_4
  rw [h1, h2, h3, h5]

/-- Witness for C10: two concrete states differing only in `j4` and `j6`
give the same pose. -/
theorem fk_ignores_j4_j6_witness :
    calculateForwardKinematics { j1 := 0, j2 := 90, j3 := 0, j4 := 0, j5 := -90, j6 := 0 } =
      calculateForwardKinematics
        { j1 := 0, j2 := 90, j3 := 0, j4 := 123, j5 := -90, j6 := -45 } :=
  fk_ignores_j4_j6 _ _ rfl rfl rfl rfl

end

end HS220
